import Mathlib

/-!
Verification of the `labelprinter` utility (src/main.c) against its
natural-language specification.

The development shallowly embeds the program's own logic:

* the fit/scale/center arithmetic of `print_label` (C `int` arithmetic;
  C division truncates toward zero, which is `Int.tdiv`);
* the bitmap-header validation of `open_label`;
* the paper-catalog lookup of `get_paper_size` (a `strncmp`-bounded
  first-match scan);
* the device-context call sequence of `print_label`, as a trace of the
  GDI calls it issues, parametrised by which OS calls succeed;
* the exit-status behaviour of `main`.

OS calls themselves (GDI, spooler, file I/O) are external collaborators;
they are modelled by outcome parameters, never reimplemented.
-/

/-! ## Fit / scale / center arithmetic (print_label, main.c lines 564-567)

C source:
  bitmap_print_w    = (label->width * print_resx) / label->xres;
  bitmap_print_h    = (label->height * print_resy) / label->yres;
  bitmap_print_offx = (print_w - bitmap_print_w) / 2;
  bitmap_print_offy = (print_h - bitmap_print_h) / 2;
All variables are C `int`; C integer division truncates toward zero
(`Int.tdiv`).  The same formula serves width and height. -/

/-- Target size in device pixels: `(label->width * print_resx) / label->xres`
(main.c line 564; line 565 is the same formula for the height). -/
def bitmap_print_w (width print_resx xres : Int) : Int :=
  (width * print_resx).tdiv xres

/-- Centering offset: `(print_w - bitmap_print_w) / 2` (main.c line 566;
line 567 is the same formula for the vertical offset). -/
def bitmap_print_offx (print_w target_w : Int) : Int :=
  (print_w - target_w).tdiv 2

/-! ## Bitmap decoding (open_label, main.c lines 395-505)

`open_label` reads the whole file, then validates the
`BITMAPFILEHEADER` and exposes fields of the `BITMAPINFOHEADER`
verbatim.  We model a successfully-read file by its actual byte size
together with the header fields the code inspects. -/

/-- Byte size of the packed C `BITMAPFILEHEADER` structure. -/
def sizeof_BITMAPFILEHEADER : Nat := 14

/-- Byte size of the C `BITMAPINFOHEADER` structure. -/
def sizeof_BITMAPINFOHEADER : Nat := 40

/-- The fields of `BITMAPFILEHEADER` that `open_label` inspects
(`bfType`, `bfSize`, `bfOffBits`; all unsigned in C). -/
structure BitmapFileHeader where
  bfType : Nat
  bfSize : Nat
  bfOffBits : Nat
deriving DecidableEq, Repr

/-- The fields of `BITMAPINFOHEADER` that `open_label` exposes
(`biWidth`, `biHeight`, `biXPelsPerMeter`, `biYPelsPerMeter`;
all signed 32-bit in C). -/
structure BitmapInfoHeader where
  biWidth : Int
  biHeight : Int
  biXPelsPerMeter : Int
  biYPelsPerMeter : Int
deriving DecidableEq, Repr

/-- An input file that was successfully read into memory: its actual
on-disk byte count (`sizel` in the code) and the two headers at the
start of the buffer. -/
structure LabelFile where
  fileSize : Nat
  header : BitmapFileHeader
  info_header : BitmapInfoHeader
deriving DecidableEq, Repr

/-- The decoded view `struct label` exposes (main.c lines 476-482):
width, height and densities are copied from the info header verbatim. -/
structure Label where
  width : Int
  height : Int
  xres : Int
  yres : Int
deriving DecidableEq, Repr

/-- Header validation and field extraction of `open_label`
(main.c lines 452-482).  The two rejection tests are exactly the C
conditions: `bfType != 0x4D42 || bfSize != sizel`, then
`bfOffBits < sizeof(BITMAPFILEHEADER) + sizeof(BITMAPINFOHEADER) ||
bfOffBits > sizel`.  `none` models the NULL return (no partial image). -/
def open_label (f : LabelFile) : Option Label :=
  if f.header.bfType ≠ 0x4D42 ∨ f.header.bfSize ≠ f.fileSize then
    none
  else if f.header.bfOffBits < sizeof_BITMAPFILEHEADER + sizeof_BITMAPINFOHEADER ∨
      f.header.bfOffBits > f.fileSize then
    none
  else
    some { width := f.info_header.biWidth
           height := f.info_header.biHeight
           xres := f.info_header.biXPelsPerMeter
           yres := f.info_header.biYPelsPerMeter }

/-! ## Theorems for claims C1 and C2 -/

/-- Claim C1, counterexample: with density 2 > 0, device resolution 1 and
image width 1, the computed target width is `(1*1)/2 = 0`; doubling the
width gives `(2*1)/2 = 1 ≠ 2*0`.  C truncating division breaks the exact
doubling law stated by the claim. -/
theorem C1_doubling_counterexample :
    (0 : Int) < 2 ∧ bitmap_print_w 2 1 2 ≠ 2 * bitmap_print_w 1 1 2 := by
  decide

/-- Claim C1, amended: for density > 0 (and the non-negative widths and
resolutions of the claim's domain) the computed target device width is the
truncated quotient `(width * resolution) / density`, and doubling the image
width yields exactly double the target when twice the division remainder is
below the density, and double plus one otherwise (analogously for height). -/
theorem C1_scale_doubling (w r d : Nat) (hd : 0 < d) :
    bitmap_print_w (w : Int) (r : Int) (d : Int) = ((w * r / d : Nat) : Int) ∧
    bitmap_print_w ((2 * w : Nat) : Int) (r : Int) (d : Int) =
      2 * bitmap_print_w (w : Int) (r : Int) (d : Int) +
        (if 2 * (w * r % d) < d then 0 else 1) := by
  have key : ∀ a : Nat, bitmap_print_w (a : Int) (r : Int) (d : Int) =
      ((a * r / d : Nat) : Int) := by
    intro a
    show ((a : Int) * (r : Int)).tdiv (d : Int) = _
    rw [← Nat.cast_mul, Int.ofNat_tdiv]
  have hq : (2 * (w * r) / d : Nat) =
      2 * (w * r / d) + (if 2 * (w * r % d) < d then 0 else 1) := by
    have hsplit : (2 * (w * r) : Nat) = 2 * (w * r % d) + d * (2 * (w * r / d)) := by
      conv_lhs => rw [show w * r = w * r % d + d * (w * r / d) from (Nat.mod_add_div _ _).symm]
      ring
    rw [hsplit, Nat.add_mul_div_left _ _ hd]
    by_cases hc : 2 * (w * r % d) < d
    · rw [Nat.div_eq_of_lt hc]
      simp [hc]
    · have hlt : 2 * (w * r % d) < 2 * d := by
        have := Nat.mod_lt (w * r) hd
        omega
      have h1 : 1 ≤ 2 * (w * r % d) / d := by
        rw [Nat.le_div_iff_mul_le hd]
        omega
      have h2 : 2 * (w * r % d) / d < 2 := by
        rw [Nat.div_lt_iff_lt_mul hd]
        omega
      have : 2 * (w * r % d) / d = 1 := by omega
      rw [this]
      simp [hc]
      omega
  refine ⟨key w, ?_⟩
  rw [key, key]
  have h2w : ((2 * w) * r : Nat) = 2 * (w * r) := by ring
  rw [h2w, hq]
  push_cast
  split_ifs <;> ring

/-- Witness for C1_scale_doubling at width 1, resolution 1, density 2. -/
theorem C1_scale_doubling_witness :
    bitmap_print_w ((1 : Nat) : Int) ((1 : Nat) : Int) ((2 : Nat) : Int) =
      ((1 * 1 / 2 : Nat) : Int) ∧
    bitmap_print_w ((2 * 1 : Nat) : Int) ((1 : Nat) : Int) ((2 : Nat) : Int) =
      2 * bitmap_print_w ((1 : Nat) : Int) ((1 : Nat) : Int) ((2 : Nat) : Int) +
        (if 2 * (1 * 1 % 2) < 2 then 0 else 1) :=
  C1_scale_doubling 1 1 2 (by decide)

/-- Claim C2, counterexample: with printable size 10 and target size 11,
the target exceeds the printable size but the C offset `(10 - 11) / 2`
truncates toward zero to `0`, which is not negative. -/
theorem C2_centering_counterexample :
    (10 : Int) < 11 ∧ ¬ bitmap_print_offx 10 11 < 0 := by
  decide

/-- Claim C2, amended: the centering offset is the C-truncated quotient
`(printable - target) / 2`; when target ≤ printable the offset is
non-negative and offset + target ≤ printable (the image lies within the
printable span); when target > printable the offset is non-positive and is
not clamped — it is zero when target = printable + 1 and strictly negative
as soon as target ≥ printable + 2. -/
theorem C2_centering (p t : Int) :
    (t ≤ p → 0 ≤ bitmap_print_offx p t ∧ bitmap_print_offx p t + t ≤ p) ∧
    (p < t → bitmap_print_offx p t ≤ 0) ∧
    (t = p + 1 → bitmap_print_offx p t = 0) ∧
    (p + 2 ≤ t → bitmap_print_offx p t < 0) := by
  have hneg : bitmap_print_offx p t = -((t - p).tdiv 2) := by
    show (p - t).tdiv 2 = _
    rw [show p - t = -(t - p) by ring, Int.neg_tdiv]
  refine ⟨?_, ?_, ?_, ?_⟩
  · intro h
    have h0 : (0 : Int) ≤ p - t := by omega
    constructor
    · exact Int.tdiv_nonneg h0 (by norm_num)
    · have : (p - t).tdiv 2 ≤ p - t := by
        rw [Int.tdiv_eq_ediv h0 (by norm_num)]
        exact Int.ediv_le_self 2 h0
      show (p - t).tdiv 2 + t ≤ p
      omega
  · intro h
    rw [hneg]
    have : (0 : Int) ≤ (t - p).tdiv 2 := Int.tdiv_nonneg (by omega) (by norm_num)
    omega
  · intro h
    show (p - t).tdiv 2 = 0
    rw [show p - t = -1 by omega]
    decide
  · intro h
    rw [hneg]
    have h0 : (0 : Int) ≤ t - p := by omega
    have : 1 ≤ (t - p).tdiv 2 := by
      rw [Int.tdiv_eq_ediv h0 (by norm_num), Int.le_ediv_iff_mul_le (by norm_num)]
      omega
    omega

/-- Witness for C2_centering with printable size 4 and target size 2. -/
theorem C2_centering_witness :
    0 ≤ bitmap_print_offx 4 2 ∧ bitmap_print_offx 4 2 + 2 ≤ 4 :=
  (C2_centering 4 2).1 (by decide)

/-! ## Theorems for claims C5, C3 and C9 (open_label) -/

/-- Claim C5: the decoder rejects a (successfully read) file, returning no
partial image, exactly when the two-byte type tag differs from the bitmap
signature 0x4D42, or the header's declared total size differs from the
actual file size, or the declared pixel-data offset is below the combined
file-header and info-header size, or above the file size. -/
theorem C5_header_validation (f : LabelFile) :
    open_label f = none ↔
      (f.header.bfType ≠ 0x4D42 ∨ f.header.bfSize ≠ f.fileSize ∨
       f.header.bfOffBits < sizeof_BITMAPFILEHEADER + sizeof_BITMAPINFOHEADER ∨
       f.header.bfOffBits > f.fileSize) := by
  unfold open_label
  split_ifs with h1 h2
  · exact iff_of_true rfl (by tauto)
  · exact iff_of_true rfl (by tauto)
  · refine iff_of_false (by simp) ?_
    push_neg at h1 h2 ⊢
    simp only [sizeof_BITMAPFILEHEADER, sizeof_BITMAPINFOHEADER] at *
    omega

/-- A syntactically valid bitmap header whose declared pixel densities are
both zero: signature 0x4D42, declared size equal to the 102-byte actual
size, pixel data at offset 54. -/
def zero_density_file : LabelFile :=
  { fileSize := 102
    header := { bfType := 0x4D42, bfSize := 102, bfOffBits := 54 }
    info_header :=
      { biWidth := 4, biHeight := 4, biXPelsPerMeter := 0, biYPelsPerMeter := 0 } }

/-- Claim C3 names a check the code does not perform: `open_label` never
inspects the density fields, so a file declaring zero horizontal and
vertical pixel density is accepted at decode time and its zero density is
exposed to the render-time division. -/
theorem C3_zero_density_accepted :
    (open_label zero_density_file).isSome = true ∧
    (open_label zero_density_file).map Label.xres = some 0 ∧
    (open_label zero_density_file).map Label.yres = some 0 := by
  decide

/-- Claim C9, amended: the decoder copies the stored width and height
fields into the exposed view verbatim, sign included; the exposed height is
a non-negative magnitude exactly when the stored field is non-negative. -/
theorem C9_height_verbatim (f : LabelFile) (l : Label)
    (h : open_label f = some l) :
    l.height = f.info_header.biHeight ∧ l.width = f.info_header.biWidth := by
  unfold open_label at h
  split_ifs at h
  have he := Option.some.inj h
  subst he
  exact ⟨rfl, rfl⟩

/-- A well-formed bitmap file with positive stored height. -/
def sample_file : LabelFile :=
  { fileSize := 102
    header := { bfType := 0x4D42, bfSize := 102, bfOffBits := 54 }
    info_header :=
      { biWidth := 4, biHeight := 7, biXPelsPerMeter := 2835, biYPelsPerMeter := 2835 } }

/-- The view `open_label` produces for `sample_file`. -/
def sample_label : Label :=
  { width := 4, height := 7, xres := 2835, yres := 2835 }

/-- Witness for C9_height_verbatim on `sample_file`. -/
theorem C9_height_verbatim_witness :
    sample_label.height = sample_file.info_header.biHeight ∧
    sample_label.width = sample_file.info_header.biWidth :=
  C9_height_verbatim sample_file sample_label (by decide)

/-- A top-down bitmap: valid header, stored height −100. -/
def topdown_file : LabelFile :=
  { fileSize := 102
    header := { bfType := 0x4D42, bfSize := 102, bfOffBits := 54 }
    info_header :=
      { biWidth := 4, biHeight := -100, biXPelsPerMeter := 2835, biYPelsPerMeter := 2835 } }

/-- Claim C9, counterexample: a file with stored height −100 decodes
successfully and the exposed height is −100, a negative value, not a
magnitude. -/
theorem C9_negative_height_counterexample :
    (open_label topdown_file).isSome = true ∧
    (open_label topdown_file).map Label.height = some (-100) ∧
    ¬ (0 : Int) ≤ -100 := by
  decide

/-! ## Paper catalog lookup (get_paper_size, main.c lines 195-309)

The driver reports three index-aligned arrays; the code scans the names
with `strncmp(name, paper_size_name, PAPER_NAME_SIZE)` and copies the
entry at the first matching index.  Strings are byte lists; reading past
the end of a list yields the NUL terminator. -/

/-- The C constant `PAPER_NAME_SIZE`. -/
def PAPER_NAME_SIZE : Nat := 64

/-- Whether `strncmp(a, b, n) == 0`: bytes are compared pairwise, the scan
stops at the first differing byte (unequal), at a shared NUL (equal), or
after `n` bytes (equal).  The end of a list reads as NUL. -/
def strncmp_eq : Nat → List Nat → List Nat → Bool
  | 0, _, _ => true
  | _ + 1, [], [] => true
  | _ + 1, [], b :: _ => b == 0
  | _ + 1, a :: _, [] => a == 0
  | n + 1, a :: as, b :: bs =>
    if a ≠ b then false
    else if a == 0 then true
    else strncmp_eq n as bs

/-- One index of the three parallel driver arrays: the 64-byte name field
(`DC_PAPERNAMES`), the short size code (`DC_PAPERS`) and the `POINT`
dimensions in tenths of a millimeter (`DC_PAPERSIZE`). -/
structure CatalogEntry where
  name : List Nat
  size : Int
  dim_x : Int
  dim_y : Int
deriving DecidableEq, Repr

/-- The `struct paper_size` descriptor the code fills in on a match.  The
C struct stores the dimensions divided by 10.0 as floats; we keep the
exact driver value in tenths of a millimeter. -/
structure paper_size where
  name : List Nat
  size : Int
  width_tenths_mm : Int
  height_tenths_mm : Int
deriving DecidableEq, Repr

/-- The name copy `snprintf(paper_size->name, PAPER_NAME_SIZE, "%s", name)`:
at most 63 bytes of the source up to its first NUL. -/
def snprintf_name (src : List Nat) : List Nat :=
  (src.takeWhile fun b => b ≠ 0).take 63

/-- The descriptor built from the matching entry (main.c lines 279-282). -/
def descriptor_of (e : CatalogEntry) : paper_size :=
  { name := snprintf_name e.name
    size := e.size
    width_tenths_mm := e.dim_x
    height_tenths_mm := e.dim_y }

/-- Out-of-range default for indexed access in the lookup statement. -/
def dummyEntry : CatalogEntry :=
  { name := [], size := 0, dim_x := 0, dim_y := 0 }

/-- The scan of `get_paper_size` (main.c lines 264-290): walk the catalog
in index order, return the descriptor of the first entry whose name field
strncmp-matches the desired name, `none` (the NULL return announcing
`NotFoundError`) when no entry matches. -/
def get_paper_size : List CatalogEntry → List Nat → Option paper_size
  | [], _ => none
  | e :: rest, want =>
    if strncmp_eq PAPER_NAME_SIZE e.name want then some (descriptor_of e)
    else get_paper_size rest want

/-- Claim C6: the lookup fails exactly when no index matches under the
64-byte-bounded exact comparison, and whenever index `i` matches while all
indices below `i` do not, the result is the descriptor built from entry
`i` (first match wins). -/
theorem C6_paper_lookup (catalog : List CatalogEntry) (want : List Nat) :
    (get_paper_size catalog want = none ↔
      ∀ i, i < catalog.length →
        strncmp_eq PAPER_NAME_SIZE (catalog.getD i dummyEntry).name want = false) ∧
    (∀ i, i < catalog.length →
      strncmp_eq PAPER_NAME_SIZE (catalog.getD i dummyEntry).name want = true →
      (∀ j, j < i →
        strncmp_eq PAPER_NAME_SIZE (catalog.getD j dummyEntry).name want = false) →
      get_paper_size catalog want = some (descriptor_of (catalog.getD i dummyEntry))) := by
  induction catalog with
  | nil =>
    refine ⟨by simp [get_paper_size], ?_⟩
    intro i hi
    exact absurd hi (Nat.not_lt_zero i)
  | cons e rest ih =>
    by_cases hm : strncmp_eq PAPER_NAME_SIZE e.name want = true
    · refine ⟨?_, ?_⟩
      · constructor
        · intro hnone
          rw [get_paper_size, if_pos hm] at hnone
          exact absurd hnone (by simp)
        · intro hall
          have h0 := hall 0 (Nat.succ_pos _)
          rw [List.getD_cons_zero] at h0
          rw [hm] at h0
          exact absurd h0 (by simp)
      · intro i hi hmi hfirst
        cases i with
        | zero =>
          rw [get_paper_size, if_pos hm, List.getD_cons_zero]
        | succ k =>
          have h0 := hfirst 0 (Nat.succ_pos k)
          rw [List.getD_cons_zero] at h0
          rw [h0] at hm
          exact absurd hm (by simp)
    · rw [Bool.not_eq_true] at hm
      refine ⟨?_, ?_⟩
      · rw [get_paper_size, if_neg (by simp [hm])]
        constructor
        · intro hnone i hi
          cases i with
          | zero => simpa [List.getD_cons_zero] using hm
          | succ k =>
            rw [List.getD_cons_succ]
            exact (ih.1.mp hnone) k (by simpa using hi)
        · intro hall
          apply ih.1.mpr
          intro k hk
          have := hall (k + 1) (by simpa using hk)
          rwa [List.getD_cons_succ] at this
      · intro i hi hmi hfirst
        cases i with
        | zero =>
          rw [List.getD_cons_zero] at hmi
          rw [hmi] at hm
          exact absurd hm (by simp)
        | succ k =>
          rw [get_paper_size, if_neg (by simp [hm]), List.getD_cons_succ] at *
          apply ih.2 k (by simpa using hi) hmi
          intro j hj
          have := hfirst (j + 1) (by omega)
          rwa [List.getD_cons_succ] at this

/-- A catalog entry named "A4" (bytes of the driver's 64-byte field). -/
def entryA4 : CatalogEntry :=
  { name := [65, 52], size := 9, dim_x := 2100, dim_y := 2970 }

/-- A catalog entry named "4x6". -/
def entry4x6 : CatalogEntry :=
  { name := [52, 120, 54], size := 256, dim_x := 1016, dim_y := 1524 }

/-- Witness for C6_paper_lookup: in the catalog ["A4", "4x6"], looking up
"4x6" skips the non-matching index 0 and returns the descriptor of
index 1. -/
theorem C6_paper_lookup_witness :
    get_paper_size [entryA4, entry4x6] [52, 120, 54] =
      some (descriptor_of ([entryA4, entry4x6].getD 1 dummyEntry)) :=
  (C6_paper_lookup [entryA4, entry4x6] [52, 120, 54]).2 1 (by decide) (by decide)
    (fun j hj => by
      have hj0 : j = 0 := by omega
      subst hj0
      decide)

/-! ## Device-context call sequence (print_label, main.c lines 518-685)

`print_label` issues a fixed sequence of GDI calls; each may fail.  We
record the calls actually issued as a trace, parametrised by an outcome
for every call site.  The control flow mirrors the C exactly: a failing
call does `goto exit`; the saved state (`saved_state > 0`) is restored at
the exit label whenever the save succeeded, and a failing `RestoreDC`
forces the overall result to failure. -/

/-- One GDI call that `print_label` can issue on the device context. -/
inductive DCEvent where
  | saveDC
  | setMapMode
  | setWindowExt
  | setViewportExt
  | setViewportOrg
  | startDoc
  | startPage
  | blit
  | endPage
  | endDoc
  | restoreDC
deriving DecidableEq, Repr

/-- Success or failure of each call site in one `print_label` run
(`open_label` included, since its failure skips everything else). -/
structure ApiOutcome where
  openLabelOk : Bool
  saveOk : Bool
  mapModeOk : Bool
  windowExtOk : Bool
  viewportExtOk : Bool
  viewportOrgOk : Bool
  startDocOk : Bool
  startPageOk : Bool
  blitOk : Bool
  endPageOk : Bool
  endDocOk : Bool
  restoreOk : Bool
deriving DecidableEq, Repr

/-- The result and GDI trace of one `print_label` call (main.c 518-685).
`finish ok evs` is the exit label with `saved_state > 0`: `RestoreDC` is
always issued there and its failure forces the result to `false`.  The
two early exits (decode failure, `SaveDC` failure) leave `saved_state`
at 0 and issue no restore.  In dry-run mode the document/page/blit
sequence is skipped and the result is reported successful. -/
def print_label (dryRun : Bool) (api : ApiOutcome) : Bool × List DCEvent :=
  if !api.openLabelOk then (false, [])
  else if !api.saveOk then (false, [.saveDC])
  else
    let finish : Bool → List DCEvent → Bool × List DCEvent := fun ok evs =>
      (ok && api.restoreOk, evs ++ [.restoreDC])
    if !api.mapModeOk then finish false [.saveDC, .setMapMode]
    else if !api.windowExtOk then finish false [.saveDC, .setMapMode, .setWindowExt]
    else if !api.viewportExtOk then
      finish false [.saveDC, .setMapMode, .setWindowExt, .setViewportExt]
    else if !api.viewportOrgOk then
      finish false [.saveDC, .setMapMode, .setWindowExt, .setViewportExt, .setViewportOrg]
    else
      let pre : List DCEvent :=
        [.saveDC, .setMapMode, .setWindowExt, .setViewportExt, .setViewportOrg]
      if dryRun then finish true pre
      else if !api.startDocOk then finish false (pre ++ [.startDoc])
      else if !api.startPageOk then finish false (pre ++ [.startDoc, .startPage])
      else if !api.blitOk then finish false (pre ++ [.startDoc, .startPage, .blit])
      else if !api.endPageOk then
        finish false (pre ++ [.startDoc, .startPage, .blit, .endPage])
      else if !api.endDocOk then
        finish false (pre ++ [.startDoc, .startPage, .blit, .endPage, .endDoc])
      else finish true (pre ++ [.startDoc, .startPage, .blit, .endPage, .endDoc])

/-- The calls that modify the device context's coordinate-mapping state. -/
def isMutation : DCEvent → Bool
  | .setMapMode => true
  | .setWindowExt => true
  | .setViewportExt => true
  | .setViewportOrg => true
  | _ => false

/-- Every mutation in the trace is preceded by a `SaveDC`: no mutation
occurs before the first `saveDC` event. -/
def savePrecedesMutations : List DCEvent → Bool
  | [] => true
  | e :: rest =>
    if e == DCEvent.saveDC then true
    else !isMutation e && savePrecedesMutations rest

/-- Every mutation in the trace is followed by a later `RestoreDC`. -/
def mutationsRestored : List DCEvent → Bool
  | [] => true
  | e :: rest =>
    (!isMutation e || rest.any fun x => x == DCEvent.restoreDC) && mutationsRestored rest

/-- The per-file loop of `main` (main.c lines 837-847): call `print_label`
for each file in order; the first failure does `goto exit`, abandoning the
remaining files.  Returns the overall result and how many files were
attempted. -/
def main_loop (d : Bool) : List ApiOutcome → Bool × Nat
  | [] => (true, 0)
  | api :: rest =>
    if (print_label d api).1 then
      ((main_loop d rest).1, (main_loop d rest).2 + 1)
    else (false, 1)

/-! ## Theorems for claims C7, C8 and C10 -/

/-- Claim C7: in dry-run mode, once the image decodes and the save and the
four coordinate-mapping calls succeed, `print_label` issues exactly the
save, the four device-context mutations and the restore — no document,
page or blit call — and reports success. -/
theorem C7_dry_run (api : ApiOutcome)
    (h1 : api.openLabelOk = true) (h2 : api.saveOk = true)
    (h3 : api.mapModeOk = true) (h4 : api.windowExtOk = true)
    (h5 : api.viewportExtOk = true) (h6 : api.viewportOrgOk = true)
    (h7 : api.restoreOk = true) :
    print_label true api =
      (true, [.saveDC, .setMapMode, .setWindowExt, .setViewportExt,
              .setViewportOrg, .restoreDC]) := by
  obtain ⟨o, s, m, w, v, g, sd, sp, b, ep, ed, r⟩ := api
  replace h1 : o = true := h1
  replace h2 : s = true := h2
  replace h3 : m = true := h3
  replace h4 : w = true := h4
  replace h5 : v = true := h5
  replace h6 : g = true := h6
  replace h7 : r = true := h7
  subst h1 h2 h3 h4 h5 h6 h7
  rfl

/-- Witness for C7_dry_run with every call succeeding. -/
theorem C7_dry_run_witness :
    print_label true
        { openLabelOk := true, saveOk := true, mapModeOk := true,
          windowExtOk := true, viewportExtOk := true, viewportOrgOk := true,
          startDocOk := true, startPageOk := true, blitOk := true,
          endPageOk := true, endDocOk := true, restoreOk := true } =
      (true, [.saveDC, .setMapMode, .setWindowExt, .setViewportExt,
              .setViewportOrg, .restoreDC]) :=
  C7_dry_run _ rfl rfl rfl rfl rfl rfl rfl

/-- Claim C8: in every `print_label` run — any mode, any combination of
call failures — each device-context mutation in the issued trace is
preceded by the state save and followed by the state restore, so
successive calls start from the same baseline device-context state. -/
theorem C8_save_restore (d : Bool) (api : ApiOutcome) :
    savePrecedesMutations (print_label d api).2 = true ∧
    mutationsRestored (print_label d api).2 = true := by
  obtain ⟨o, s, m, w, v, g, sd, sp, b, ep, ed, r⟩ := api
  cases d <;> cases o <;> cases s <;> cases m <;> cases w <;> cases v <;> cases g <;>
    cases sd <;> cases sp <;> cases b <;> cases ep <;> cases ed <;> cases r <;>
    exact ⟨rfl, rfl⟩

/-- Claim C10: whenever the decode and the state save succeed but the
final `RestoreDC` fails, `print_label` reports failure — whatever the
print itself did — and the caller's loop stops after this first file. -/
theorem C10_restore_failure (d : Bool) (api : ApiOutcome) (rest : List ApiOutcome)
    (h1 : api.openLabelOk = true) (h2 : api.saveOk = true)
    (h3 : api.restoreOk = false) :
    (print_label d api).1 = false ∧ main_loop d (api :: rest) = (false, 1) := by
  have hfst : (print_label d api).1 = false := by
    obtain ⟨o, s, m, w, v, g, sd, sp, b, ep, ed, r⟩ := api
    replace h1 : o = true := h1
    replace h2 : s = true := h2
    replace h3 : r = false := h3
    subst h1 h2 h3
    cases d <;> cases m <;> cases w <;> cases v <;> cases g <;> cases sd <;>
      cases sp <;> cases b <;> cases ep <;> cases ed <;> rfl
  refine ⟨hfst, ?_⟩
  show (if (print_label d api).1 = true then
      ((main_loop d rest).1, (main_loop d rest).2 + 1) else (false, 1)) = (false, 1)
  rw [hfst]
  simp

/-- Witness for C10_restore_failure: every call succeeds except the final
restore; the page is fully printed (the trace reaches `EndDoc`) yet the
call reports failure and the second file is never attempted. -/
theorem C10_restore_failure_witness :
    ((print_label false
        { openLabelOk := true, saveOk := true, mapModeOk := true,
          windowExtOk := true, viewportExtOk := true, viewportOrgOk := true,
          startDocOk := true, startPageOk := true, blitOk := true,
          endPageOk := true, endDocOk := true, restoreOk := false }).1 = false ∧
      main_loop false
        ({ openLabelOk := true, saveOk := true, mapModeOk := true,
           windowExtOk := true, viewportExtOk := true, viewportOrgOk := true,
           startDocOk := true, startPageOk := true, blitOk := true,
           endPageOk := true, endDocOk := true, restoreOk := false } ::
         [{ openLabelOk := true, saveOk := true, mapModeOk := true,
            windowExtOk := true, viewportExtOk := true, viewportOrgOk := true,
            startDocOk := true, startPageOk := true, blitOk := true,
            endPageOk := true, endDocOk := true, restoreOk := true }]) = (false, 1)) ∧
    DCEvent.endDoc ∈ (print_label false
        { openLabelOk := true, saveOk := true, mapModeOk := true,
          windowExtOk := true, viewportExtOk := true, viewportOrgOk := true,
          startDocOk := true, startPageOk := true, blitOk := true,
          endPageOk := true, endDocOk := true, restoreOk := false }).2 :=
  ⟨C10_restore_failure false _ _ rfl rfl rfl, by decide⟩

/-! ## Exit status of main (main.c lines 687-866)

Argument handling exits directly: help exits `EXIT_SUCCESS`, an unknown
option, an empty file list or a bad orientation exit `EXIT_FAILURE`.
Every later failure (printer resolution, paper lookup, page
configuration, context creation, per-file decode/print) does `goto exit`,
and the exit label (line 849) falls through to `return 0` (line 865) —
the same status as full success. -/

/-- The C constant `EXIT_SUCCESS`. -/
def EXIT_SUCCESS : Nat := 0

/-- The C constant `EXIT_FAILURE`. -/
def EXIT_FAILURE : Nat := 1

/-- How argument parsing ended: help requested, a usage error, or
proceeding to the processing pipeline. -/
inductive ArgsOutcome where
  | help
  | unknownOption
  | noFiles
  | badOrientation
  | proceed
deriving DecidableEq, Repr

/-- Outcome of each processing step `main` performs after argument
parsing: default-printer resolution, default-paper-name retrieval, paper
lookup, page configuration (`set_paper_size`), device-context creation,
and the per-file `print_label` results. -/
structure MainEnv where
  defaultPrinterOk : Bool
  defaultPaperOk : Bool
  paperFound : Bool
  devmodeOk : Bool
  contextOk : Bool
  fileOk : List Bool
deriving DecidableEq, Repr

/-- Whether the whole processing pipeline succeeded. -/
def pipeline_succeeds (env : MainEnv) : Bool :=
  env.defaultPrinterOk && env.defaultPaperOk && env.paperFound &&
    env.devmodeOk && env.contextOk && env.fileOk.all fun b => b

/-- The process exit status of `main`.  The `.proceed` arm mirrors the C
control flow: each failing step jumps to the exit label, and that label
returns 0 for failure and success alike (main.c lines 849-865). -/
def main_exit (args : ArgsOutcome) (env : MainEnv) : Nat :=
  match args with
  | .help => EXIT_SUCCESS
  | .unknownOption => EXIT_FAILURE
  | .noFiles => EXIT_FAILURE
  | .badOrientation => EXIT_FAILURE
  | .proceed =>
    if !env.defaultPrinterOk then 0
    else if !env.defaultPaperOk then 0
    else if !env.paperFound then 0
    else if !env.devmodeOk then 0
    else if !env.contextOk then 0
    else if !(env.fileOk.all fun b => b) then 0
    else 0

/-- A run whose default-printer resolution fails. -/
def envPrinterFail : MainEnv :=
  { defaultPrinterOk := false, defaultPaperOk := true, paperFound := true,
    devmodeOk := true, contextOk := true, fileOk := [true] }

/-- A run whose paper lookup fails. -/
def envPaperFail : MainEnv :=
  { defaultPrinterOk := true, defaultPaperOk := true, paperFound := false,
    devmodeOk := true, contextOk := true, fileOk := [true] }

/-- A run whose only file fails to decode or print. -/
def envFileFail : MainEnv :=
  { defaultPrinterOk := true, defaultPaperOk := true, paperFound := true,
    devmodeOk := true, contextOk := true, fileOk := [false] }

/-- Claim C4 is half right on the code: success and help exit 0 and the
usage errors exit non-zero, but every processing failure also exits 0,
because main's exit label falls through to `return 0`.  Shown here for a
failing printer resolution, a failing paper lookup and a failing file. -/
theorem C4_exit_status :
    main_exit .help envPrinterFail = 0 ∧
    main_exit .unknownOption envPrinterFail = EXIT_FAILURE ∧
    main_exit .noFiles envPrinterFail = EXIT_FAILURE ∧
    main_exit .badOrientation envPrinterFail = EXIT_FAILURE ∧
    (pipeline_succeeds envPrinterFail = false ∧ main_exit .proceed envPrinterFail = 0) ∧
    (pipeline_succeeds envPaperFail = false ∧ main_exit .proceed envPaperFail = 0) ∧
    (pipeline_succeeds envFileFail = false ∧ main_exit .proceed envFileFail = 0) := by
  decide
